import Mathlib

/-!
# Verification of the icm2018-workshop tutorial notebooks

The repository consists of Jupyter tutorial notebooks whose code cells call
the external packages `discretisedfield` (imported as `df`) and `oommfc`
(imported as `oc`).  This file gives

* a deep embedding of the Python code appearing in the notebooks' code cells
  (`PExpr`, `FStmt`, `PStmt`), together with a faithful transcription of every
  code cell of the four notebooks (Tutorials 0, 1, 3 and 4);
* a shallow embedding, over exact numbers, of the three pointwise
  magnetisation functions defined in the notebooks (`m_value` of Tutorial 1,
  `Ms_value` of Tutorial 1, `m_value` of Tutorial 4);
* theorems settling structural claims about the notebook code (imports,
  delegation to the external packages, Hamiltonian and dynamics composition,
  absence of error handling) and semantic claims about the three functions.
-/

set_option maxRecDepth 100000

namespace ICM

/-- Python expressions as they occur in the notebooks' code cells.
Numeric literals are carried as exact rationals. -/
inductive PExpr : Type where
  | num : ℚ → PExpr
  | str : String → PExpr
  | name : String → PExpr
  | tup : List PExpr → PExpr
  | pyList : List PExpr → PExpr
  | attrGet : PExpr → String → PExpr
  | call : PExpr → List PExpr → List (String × PExpr) → PExpr
  | add : PExpr → PExpr → PExpr
  | neg : PExpr → PExpr
  | div : PExpr → PExpr → PExpr
  | pow : PExpr → PExpr → PExpr
  | gt : PExpr → PExpr → PExpr
  | lt : PExpr → PExpr → PExpr
  | chainLt : PExpr → PExpr → PExpr → PExpr

/-- Statements inside a notebook-defined Python function body:
tuple unpacking of the argument, `return`, `if`/`else`, and `try`/`except`
(the last is part of the language, so that its absence is a checkable fact). -/
inductive FStmt : Type where
  | unpack : List String → String → FStmt
  | ret : PExpr → FStmt
  | fIf : PExpr → List FStmt → List FStmt → FStmt
  | fTry : List FStmt → List FStmt → FStmt

/-- Top-level statements of a notebook code cell: `import m as a`, an IPython
magic line, assignment to a variable, assignment and `+=` on an attribute,
a `def`, a bare expression, and `try`/`except` and `while` (again part of the
language so that their absence is checkable). -/
inductive PStmt : Type where
  | pyImport : String → String → PStmt
  | magic : String → PStmt
  | assign : String → PExpr → PStmt
  | attrAssign : String → String → PExpr → PStmt
  | attrAugAdd : String → String → PExpr → PStmt
  | funcDef : String → String → List FStmt → PStmt
  | exprStmt : PExpr → PStmt
  | tryExcept : List PStmt → List PStmt → PStmt
  | whileLoop : PExpr → List PStmt → PStmt

/-- One notebook cell: its `cell_type` string and, for code cells, the
transcribed statements of its source. -/
structure Cell : Type where
  cellType : String
  code : List PStmt

/-- One notebook document: the cell list and the `nbformat` version fields. -/
structure Notebook : Type where
  cells : List Cell
  nbformat : ℕ
  nbformatMinor : ℕ

/-- A markdown cell (its prose is irrelevant to the claims). -/
def mdCell : Cell := { cellType := "markdown", code := [] }

/-- A code cell with the given statements. -/
def codeCell (ss : List PStmt) : Cell := { cellType := "code", code := ss }

/-- Shorthand: a variable reference. -/
def vr (s : String) : PExpr := PExpr.name s

/-- Shorthand: a numeric literal. -/
def qn (x : ℚ) : PExpr := PExpr.num x

/-- Shorthand: a call `o.f(...)` on a package alias or variable name `o`. -/
def extCall (o f : String) (ps : List PExpr) (ks : List (String × PExpr)) : PExpr :=
  PExpr.call (PExpr.attrGet (PExpr.name o) f) ps ks

/-- Shorthand: a method call `recv.f(...)` on an arbitrary receiver. -/
def methCall (recv : PExpr) (f : String) (ps : List PExpr) (ks : List (String × PExpr)) :
    PExpr :=
  PExpr.call (PExpr.attrGet recv f) ps ks

namespace Tutorial1

/-- Cell: `import discretisedfield as df` and the matplotlib magic. -/
def c1 : List PStmt :=
  [ PStmt.pyImport ("discretisedfield") ("df"),
    PStmt.magic ("matplotlib inline") ]

/-- Cell: mesh parameters and `mesh = df.Mesh(p1=p1, p2=p2, cell=cell)`. -/
def c3 : List PStmt :=
  [ PStmt.assign ("L") (qn (100e-9)),
    PStmt.assign ("d") (qn (10e-9)),
    PStmt.assign ("p1") (PExpr.tup [qn 0, qn 0, qn 0]),
    PStmt.assign ("p2") (PExpr.tup [vr ("L"), vr ("L"), vr ("L")]),
    PStmt.assign ("cell") (PExpr.tup [vr ("d"), vr ("d"), vr ("d")]),
    PStmt.assign ("mesh")
      (extCall ("df") ("Mesh") []
        [("p1", vr ("p1")), ("p2", vr ("p2")), ("cell", vr ("cell"))]) ]

/-- Cell: `mesh.l`. -/
def c5 : List PStmt := [PStmt.exprStmt (PExpr.attrGet (vr ("mesh")) ("l"))]

/-- Cell: `mesh.n`. -/
def c7 : List PStmt := [PStmt.exprStmt (PExpr.attrGet (vr ("mesh")) ("n"))]

/-- Cell: `mesh.pmin`. -/
def c9 : List PStmt := [PStmt.exprStmt (PExpr.attrGet (vr ("mesh")) ("pmin"))]

/-- Cell: `mesh.pmax`. -/
def c11 : List PStmt := [PStmt.exprStmt (PExpr.attrGet (vr ("mesh")) ("pmax"))]

/-- Cell: `mesh`. -/
def c13 : List PStmt := [PStmt.exprStmt (vr ("mesh"))]

/-- Cell: `m = df.Field(mesh, dim=3, value=(1, 0, 0))`. -/
def c15 : List PStmt :=
  [ PStmt.assign ("m")
      (extCall ("df") ("Field") [vr ("mesh")]
        [("dim", qn 3), ("value", PExpr.tup [qn 1, qn 0, qn 0])]) ]

/-- Cell: `m.plot_plane(z=50e-9)`. -/
def c17 : List PStmt :=
  [PStmt.exprStmt (methCall (vr ("m")) ("plot_plane") [] [("z", qn (50e-9))])]

/-- Cell: the definition of `m_value`, the field built from it, and its plot. -/
def c19 : List PStmt :=
  [ PStmt.funcDef ("m_value") ("pos")
      [ FStmt.unpack ["x", "y", "z"] ("pos"),
        FStmt.fIf (PExpr.gt (vr ("x")) (PExpr.div (vr ("L")) (qn 5)))
          [FStmt.ret (PExpr.tup [qn 1, qn 0, qn 0])]
          [FStmt.ret (PExpr.tup [qn (-1), qn 1, qn 0])] ],
    PStmt.assign ("m")
      (extCall ("df") ("Field") [vr ("mesh")]
        [("dim", qn 3), ("value", vr ("m_value"))]),
    PStmt.exprStmt (methCall (vr ("m")) ("plot_plane") [PExpr.str ("z")] []) ]

/-- Cell: `point = (0, 0, 0)` and the field sampling `m(point)`. -/
def c21 : List PStmt :=
  [ PStmt.assign ("point") (PExpr.tup [qn 0, qn 0, qn 0]),
    PStmt.exprStmt (PExpr.call (vr ("m")) [vr ("point")] []) ]

/-- Cell: `Ms`, the normed field, and the sampling `m((50e-9, 0, 0))`. -/
def c23 : List PStmt :=
  [ PStmt.assign ("Ms") (qn (8e6)),
    PStmt.assign ("m")
      (extCall ("df") ("Field") [vr ("mesh")]
        [("dim", qn 3), ("value", vr ("m_value")), ("norm", vr ("Ms"))]),
    PStmt.exprStmt
      (PExpr.call (vr ("m")) [PExpr.tup [qn (50e-9), qn 0, qn 0]] []) ]

/-- Cell: centred mesh, the sphere norm function `Ms_value`, field, plot. -/
def c25 : List PStmt :=
  [ PStmt.assign ("mesh")
      (extCall ("df") ("Mesh") []
        [ ("p1", PExpr.tup
            [ PExpr.neg (PExpr.div (vr ("L")) (qn 2)),
              PExpr.neg (PExpr.div (vr ("L")) (qn 2)),
              PExpr.neg (PExpr.div (vr ("L")) (qn 2)) ]),
          ("p2", PExpr.tup
            [ PExpr.div (vr ("L")) (qn 2),
              PExpr.div (vr ("L")) (qn 2),
              PExpr.div (vr ("L")) (qn 2) ]),
          ("cell", PExpr.tup [vr ("d"), vr ("d"), vr ("d")]) ]),
    PStmt.funcDef ("Ms_value") ("pos")
      [ FStmt.unpack ["x", "y", "z"] ("pos"),
        FStmt.fIf
          (PExpr.lt
            (PExpr.pow
              (PExpr.add
                (PExpr.add (PExpr.pow (vr ("x")) (qn 2)) (PExpr.pow (vr ("y")) (qn 2)))
                (PExpr.pow (vr ("z")) (qn 2)))
              (qn (0.5)))
            (PExpr.div (vr ("L")) (qn 2)))
          [FStmt.ret (vr ("Ms"))]
          [FStmt.ret (qn 0)] ],
    PStmt.assign ("m")
      (extCall ("df") ("Field") [vr ("mesh")]
        [ ("dim", qn 3), ("value", PExpr.tup [qn 0, qn (-1), qn 0]),
          ("norm", vr ("Ms_value")) ]),
    PStmt.exprStmt (methCall (vr ("m")) ("plot_plane") [] [("z", qn 0)]) ]

/-- Cell (exercise 1a): disk parameters, stub `Ms_value`, field, plot. -/
def c27 : List PStmt :=
  [ PStmt.assign ("t") (qn (10e-9)),
    PStmt.assign ("d") (qn (120e-9)),
    PStmt.assign ("cell") (PExpr.tup [qn (5e-9), qn (5e-9), qn (5e-9)]),
    PStmt.assign ("Ms") (qn (1e7)),
    PStmt.assign ("mesh")
      (extCall ("df") ("Mesh") []
        [ ("p1", PExpr.tup
            [ PExpr.neg (PExpr.div (vr ("d")) (qn 2)),
              PExpr.neg (PExpr.div (vr ("d")) (qn 2)),
              PExpr.neg (PExpr.div (vr ("t")) (qn 2)) ]),
          ("p2", PExpr.tup
            [ PExpr.div (vr ("d")) (qn 2),
              PExpr.div (vr ("d")) (qn 2),
              PExpr.div (vr ("t")) (qn 2) ]),
          ("cell", vr ("cell")) ]),
    PStmt.funcDef ("Ms_value") ("pos")
      [ FStmt.unpack ["x", "y", "z"] ("pos"),
        FStmt.ret (vr ("Ms")) ],
    PStmt.assign ("m")
      (extCall ("df") ("Field") [vr ("mesh")]
        [("value", PExpr.tup [qn 1, qn 0, qn 0]), ("norm", vr ("Ms_value"))]),
    PStmt.exprStmt (methCall (vr ("m")) ("plot_plane") [PExpr.str ("z")] []) ]

/-- Cell (exercise 1b): disk parameters, stub `Ms_value` and `m_value`. -/
def c29 : List PStmt :=
  [ PStmt.assign ("t") (qn (10e-9)),
    PStmt.assign ("d") (qn (120e-9)),
    PStmt.assign ("cell") (PExpr.tup [qn (5e-9), qn (5e-9), qn (5e-9)]),
    PStmt.assign ("Ms") (qn (1e7)),
    PStmt.assign ("mesh")
      (extCall ("df") ("Mesh") []
        [ ("p1", PExpr.tup
            [ PExpr.neg (PExpr.div (vr ("d")) (qn 2)),
              PExpr.neg (PExpr.div (vr ("d")) (qn 2)),
              PExpr.neg (PExpr.div (vr ("t")) (qn 2)) ]),
          ("p2", PExpr.tup
            [ PExpr.div (vr ("d")) (qn 2),
              PExpr.div (vr ("d")) (qn 2),
              PExpr.div (vr ("t")) (qn 2) ]),
          ("cell", vr ("cell")) ]),
    PStmt.funcDef ("Ms_value") ("pos")
      [ FStmt.unpack ["x", "y", "z"] ("pos"),
        FStmt.ret (vr ("Ms")) ],
    PStmt.funcDef ("m_value") ("pos")
      [ FStmt.unpack ["x", "y", "z"] ("pos"),
        FStmt.ret (PExpr.tup [qn 1, qn 0, qn 0]) ],
    PStmt.assign ("m")
      (extCall ("df") ("Field") [vr ("mesh")]
        [("value", vr ("m_value")), ("norm", vr ("Ms_value"))]),
    PStmt.exprStmt (methCall (vr ("m")) ("plot_plane") [PExpr.str ("z")] []) ]

/-- Cell (exercise 1c): cuboid mesh, stub `Ms_value` and `m_value`. -/
def c31 : List PStmt :=
  [ PStmt.assign ("cell") (PExpr.tup [qn (5e-9), qn (5e-9), qn (5e-9)]),
    PStmt.assign ("Ms") (qn (8e6)),
    PStmt.assign ("mesh")
      (extCall ("df") ("Mesh") []
        [ ("p1", PExpr.tup [qn 0, qn 0, qn 0]),
          ("p2", PExpr.tup [qn (100e-9), qn (50e-9), qn (10e-9)]),
          ("cell", vr ("cell")) ]),
    PStmt.funcDef ("Ms_value") ("pos")
      [ FStmt.unpack ["x", "y", "z"] ("pos"),
        FStmt.ret (vr ("Ms")) ],
    PStmt.funcDef ("m_value") ("pos")
      [ FStmt.unpack ["x", "y", "z"] ("pos"),
        FStmt.ret (PExpr.tup [qn 1, qn 1, qn 1]) ],
    PStmt.assign ("m")
      (extCall ("df") ("Field") [vr ("mesh")]
        [("value", vr ("m_value")), ("norm", vr ("Ms_value"))]),
    PStmt.exprStmt (methCall (vr ("m")) ("plot_plane") [PExpr.str ("z")] []) ]

/-- Tutorial 1 ("Geometry and magnetisation"): 32 alternating markdown and
code cells, nbformat 4.2. -/
def nb : Notebook :=
  { cells :=
      [ mdCell, codeCell c1, mdCell, codeCell c3, mdCell, codeCell c5,
        mdCell, codeCell c7, mdCell, codeCell c9, mdCell, codeCell c11,
        mdCell, codeCell c13, mdCell, codeCell c15, mdCell, codeCell c17,
        mdCell, codeCell c19, mdCell, codeCell c21, mdCell, codeCell c23,
        mdCell, codeCell c25, mdCell, codeCell c27, mdCell, codeCell c29,
        mdCell, codeCell c31 ],
    nbformat := 4,
    nbformatMinor := 2 }

end Tutorial1

namespace Tutorial0

/-- Cell: both package imports and the matplotlib magic. -/
def c1 : List PStmt :=
  [ PStmt.pyImport ("oommfc") ("oc"),
    PStmt.pyImport ("discretisedfield") ("df"),
    PStmt.magic ("matplotlib inline") ]

/-- Cell: `system = oc.System(name="first-joommf-simulation")`. -/
def c3 : List PStmt :=
  [ PStmt.assign ("system")
      (extCall ("oc") ("System") [] [("name", PExpr.str ("first-joommf-simulation"))]) ]

/-- Cell: the Hamiltonian `oc.Exchange(A=A) + oc.Demag() + oc.Zeeman(H=H)`. -/
def c5 : List PStmt :=
  [ PStmt.assign ("A") (qn (1e-12)),
    PStmt.assign ("H") (PExpr.tup [qn (5e6), qn 0, qn 0]),
    PStmt.attrAssign ("system") ("hamiltonian")
      (PExpr.add
        (PExpr.add
          (extCall ("oc") ("Exchange") [] [("A", vr ("A"))])
          (extCall ("oc") ("Demag") [] []))
        (extCall ("oc") ("Zeeman") [] [("H", vr ("H"))])) ]

/-- Cell: the dynamics `oc.Precession(gamma=gamma) + oc.Damping(alpha=alpha)`. -/
def c7 : List PStmt :=
  [ PStmt.assign ("gamma") (qn (2.211e5)),
    PStmt.assign ("alpha") (qn (0.2)),
    PStmt.attrAssign ("system") ("dynamics")
      (PExpr.add
        (extCall ("oc") ("Precession") [] [("gamma", vr ("gamma"))])
        (extCall ("oc") ("Damping") [] [("alpha", vr ("alpha"))])) ]

/-- Cell: cubic mesh via `oc.Mesh` and `system.m = df.Field(...)`. -/
def c9 : List PStmt :=
  [ PStmt.assign ("L") (qn (100e-9)),
    PStmt.assign ("d") (qn (5e-9)),
    PStmt.assign ("mesh")
      (extCall ("oc") ("Mesh") []
        [ ("p1", PExpr.tup [qn 0, qn 0, qn 0]),
          ("p2", PExpr.tup [vr ("L"), vr ("L"), vr ("L")]),
          ("cell", PExpr.tup [vr ("d"), vr ("d"), vr ("d")]) ]),
    PStmt.assign ("Ms") (qn (8e6)),
    PStmt.attrAssign ("system") ("m")
      (extCall ("df") ("Field") [vr ("mesh")]
        [("value", PExpr.tup [qn 0, qn 1, qn 0]), ("norm", vr ("Ms"))]) ]

/-- Cell: `mesh`. -/
def c11 : List PStmt := [PStmt.exprStmt (vr ("mesh"))]

/-- Cell: `system.hamiltonian`. -/
def c12 : List PStmt := [PStmt.exprStmt (PExpr.attrGet (vr ("system")) ("hamiltonian"))]

/-- Cell: `system.dynamics`. -/
def c13 : List PStmt := [PStmt.exprStmt (PExpr.attrGet (vr ("system")) ("dynamics"))]

/-- Cell: `system.m.plot_plane("z")`. -/
def c15 : List PStmt :=
  [ PStmt.exprStmt
      (methCall (PExpr.attrGet (vr ("system")) ("m")) ("plot_plane") [PExpr.str ("z")] []) ]

/-- Cell: `md = oc.MinDriver()` and `md.drive(system)`. -/
def c17 : List PStmt :=
  [ PStmt.assign ("md") (extCall ("oc") ("MinDriver") [] []),
    PStmt.exprStmt (methCall (vr ("md")) ("drive") [vr ("system")] []) ]

/-- Cell: `system.m.plot_plane("z")` again, after driving. -/
def c19 : List PStmt :=
  [ PStmt.exprStmt
      (methCall (PExpr.attrGet (vr ("system")) ("m")) ("plot_plane") [PExpr.str ("z")] []) ]

/-- Cell: `system.m.average`. -/
def c20 : List PStmt :=
  [PStmt.exprStmt (PExpr.attrGet (PExpr.attrGet (vr ("system")) ("m")) ("average"))]

/-- Tutorial 0 ("First JOOMMF notebook"): 22 cells, nbformat 4.1. -/
def nb : Notebook :=
  { cells :=
      [ mdCell, codeCell c1, mdCell, codeCell c3, mdCell, codeCell c5,
        mdCell, codeCell c7, mdCell, codeCell c9, mdCell, codeCell c11,
        codeCell c12, codeCell c13, mdCell, codeCell c15, mdCell, codeCell c17,
        mdCell, codeCell c19, codeCell c20, mdCell ],
    nbformat := 4,
    nbformatMinor := 1 }

end Tutorial0

namespace Tutorial3

/-- Cell: imports, magic, and the macrospin mesh via `oc.Mesh`. -/
def c1 : List PStmt :=
  [ PStmt.pyImport ("oommfc") ("oc"),
    PStmt.pyImport ("discretisedfield") ("df"),
    PStmt.magic ("matplotlib inline"),
    PStmt.assign ("p1") (PExpr.tup [qn 0, qn 0, qn 0]),
    PStmt.assign ("p2") (PExpr.tup [qn (1e-9), qn (1e-9), qn (1e-9)]),
    PStmt.assign ("cell") (PExpr.tup [qn (1e-9), qn (1e-9), qn (1e-9)]),
    PStmt.assign ("mesh")
      (extCall ("oc") ("Mesh") []
        [("p1", vr ("p1")), ("p2", vr ("p2")), ("cell", vr ("cell"))]) ]

/-- Cell: `system = oc.System(name="macrospin")`. -/
def c3 : List PStmt :=
  [PStmt.assign ("system") (extCall ("oc") ("System") [] [("name", PExpr.str ("macrospin"))])]

/-- Cell: `system.hamiltonian = oc.Zeeman(H=H)`. -/
def c5 : List PStmt :=
  [ PStmt.assign ("H") (PExpr.tup [qn 0, qn 0, qn (2e6)]),
    PStmt.attrAssign ("system") ("hamiltonian")
      (extCall ("oc") ("Zeeman") [] [("H", vr ("H"))]) ]

/-- Cell: `system.dynamics = oc.Precession(gamma=gamma) + oc.Damping(alpha=alpha)`. -/
def c7 : List PStmt :=
  [ PStmt.assign ("gamma") (qn (2.211e5)),
    PStmt.assign ("alpha") (qn (0.1)),
    PStmt.attrAssign ("system") ("dynamics")
      (PExpr.add
        (extCall ("oc") ("Precession") [] [("gamma", vr ("gamma"))])
        (extCall ("oc") ("Damping") [] [("alpha", vr ("alpha"))])) ]

/-- Cell: `system.dynamics`. -/
def c9 : List PStmt := [PStmt.exprStmt (PExpr.attrGet (vr ("system")) ("dynamics"))]

/-- Cell: initial state `system.m = df.Field(mesh, value=initial_m, norm=Ms)`. -/
def c11 : List PStmt :=
  [ PStmt.assign ("initial_m") (PExpr.tup [qn 1, qn 0, qn 0]),
    PStmt.assign ("Ms") (qn (8e6)),
    PStmt.attrAssign ("system") ("m")
      (extCall ("df") ("Field") [vr ("mesh")]
        [("value", vr ("initial_m")), ("norm", vr ("Ms"))]) ]

/-- Cell: `td = oc.TimeDriver()` and `td.drive(system, t=0.1e-9, n=200)`. -/
def c13 : List PStmt :=
  [ PStmt.assign ("td") (extCall ("oc") ("TimeDriver") [] []),
    PStmt.exprStmt
      (methCall (vr ("td")) ("drive") [vr ("system")]
        [("t", qn (0.1e-9)), ("n", qn 200)]) ]

/-- Cell: `system.dt`. -/
def c15 : List PStmt := [PStmt.exprStmt (PExpr.attrGet (vr ("system")) ("dt"))]

/-- Cell: `system.dt.plot("t", "mz")`. -/
def c17 : List PStmt :=
  [ PStmt.exprStmt
      (methCall (PExpr.attrGet (vr ("system")) ("dt")) ("plot")
        [PExpr.str ("t"), PExpr.str ("mz")] []) ]

/-- Cell: `system.dt.plot("t", ["mx", "my", "mz"])`. -/
def c19 : List PStmt :=
  [ PStmt.exprStmt
      (methCall (PExpr.attrGet (vr ("system")) ("dt")) ("plot")
        [ PExpr.str ("t"),
          PExpr.pyList [PExpr.str ("mx"), PExpr.str ("my"), PExpr.str ("mz")] ] []) ]

/-- Exercise cell: reset `system.m`, drive again, plot all components. -/
def c22 : List PStmt :=
  [ PStmt.attrAssign ("system") ("m")
      (extCall ("df") ("Field") [vr ("mesh")]
        [("value", vr ("initial_m")), ("norm", vr ("Ms"))]),
    PStmt.exprStmt
      (methCall (vr ("td")) ("drive") [vr ("system")]
        [("t", qn (0.1e-9)), ("n", qn 200)]),
    PStmt.exprStmt
      (methCall (PExpr.attrGet (vr ("system")) ("dt")) ("plot")
        [ PExpr.str ("t"),
          PExpr.pyList [PExpr.str ("mx"), PExpr.str ("my"), PExpr.str ("mz")] ] []) ]

/-- Exercise cell: identical to the previous exercise cell. -/
def c24 : List PStmt := c22

/-- Exercise cell: identical to the previous exercise cell. -/
def c26 : List PStmt := c22

/-- Tutorial 3 ("Dynamics"): 27 cells, nbformat 4.2. -/
def nb : Notebook :=
  { cells :=
      [ mdCell, codeCell c1, mdCell, codeCell c3, mdCell, codeCell c5,
        mdCell, codeCell c7, mdCell, codeCell c9, mdCell, codeCell c11,
        mdCell, codeCell c13, mdCell, codeCell c15, mdCell, codeCell c17,
        mdCell, codeCell c19, mdCell, mdCell, codeCell c22, mdCell,
        codeCell c24, mdCell, codeCell c26 ],
    nbformat := 4,
    nbformatMinor := 2 }

end Tutorial3

namespace Tutorial4

/-- Cell: all material parameters, the mesh, the system, its Hamiltonian
`oc.Exchange(A=A) + oc.DMI(D=D, crystalclass="Cnv") +
oc.UniaxialAnisotropy(K1=K, u=u)` and its dynamics. -/
def c1 : List PStmt :=
  [ PStmt.pyImport ("oommfc") ("oc"),
    PStmt.pyImport ("discretisedfield") ("df"),
    PStmt.magic ("matplotlib inline"),
    PStmt.assign ("L") (qn (500e-9)),
    PStmt.assign ("w") (qn (20e-9)),
    PStmt.assign ("d") (qn (2.5e-9)),
    PStmt.assign ("Ms") (qn (5.8e5)),
    PStmt.assign ("A") (qn (15e-12)),
    PStmt.assign ("D") (qn (3e-3)),
    PStmt.assign ("K") (qn (0.5e6)),
    PStmt.assign ("u") (PExpr.tup [qn 0, qn 0, qn 1]),
    PStmt.assign ("gamma") (qn (2.211e5)),
    PStmt.assign ("alpha") (qn (0.3)),
    PStmt.assign ("p1") (PExpr.tup [qn 0, qn 0, qn 0]),
    PStmt.assign ("p2") (PExpr.tup [vr ("L"), vr ("w"), vr ("d")]),
    PStmt.assign ("cell") (PExpr.tup [vr ("d"), vr ("d"), vr ("d")]),
    PStmt.assign ("mesh")
      (extCall ("oc") ("Mesh") []
        [("p1", vr ("p1")), ("p2", vr ("p2")), ("cell", vr ("cell"))]),
    PStmt.assign ("system")
      (extCall ("oc") ("System") [] [("name", PExpr.str ("domain_wall_pair"))]),
    PStmt.attrAssign ("system") ("hamiltonian")
      (PExpr.add
        (PExpr.add
          (extCall ("oc") ("Exchange") [] [("A", vr ("A"))])
          (extCall ("oc") ("DMI") []
            [("D", vr ("D")), ("crystalclass", PExpr.str ("Cnv"))]))
        (extCall ("oc") ("UniaxialAnisotropy") [] [("K1", vr ("K")), ("u", vr ("u"))])),
    PStmt.attrAssign ("system") ("dynamics")
      (PExpr.add
        (extCall ("oc") ("Precession") [] [("gamma", vr ("gamma"))])
        (extCall ("oc") ("Damping") [] [("alpha", vr ("alpha"))])) ]

/-- Cell: the domain-wall initialisation function `m_value`, the field built
from it, and its plot. -/
def c3 : List PStmt :=
  [ PStmt.funcDef ("m_value") ("pos")
      [ FStmt.unpack ["x", "y", "z"] ("pos"),
        FStmt.fIf (PExpr.chainLt (qn (20e-9)) (vr ("x")) (qn (40e-9)))
          [FStmt.ret (PExpr.tup [qn 0, qn 0, qn (-1)])]
          [FStmt.ret (PExpr.tup [qn 0, qn 0, qn 1])] ],
    PStmt.attrAssign ("system") ("m")
      (extCall ("df") ("Field") [vr ("mesh")]
        [("value", vr ("m_value")), ("norm", vr ("Ms"))]),
    PStmt.exprStmt
      (methCall (PExpr.attrGet (PExpr.attrGet (vr ("system")) ("m")) ("z"))
        ("plot_plane") [PExpr.str ("z")] [("figsize", PExpr.tup [qn 12, qn 3])]) ]

/-- Cell: `md = oc.MinDriver()`, `md.drive(system)`, plot. -/
def c5 : List PStmt :=
  [ PStmt.assign ("md") (extCall ("oc") ("MinDriver") [] []),
    PStmt.exprStmt (methCall (vr ("md")) ("drive") [vr ("system")] []),
    PStmt.exprStmt
      (methCall (PExpr.attrGet (PExpr.attrGet (vr ("system")) ("m")) ("z"))
        ("plot_plane") [PExpr.str ("z")] [("figsize", PExpr.tup [qn 12, qn 3])]) ]

/-- Cell: `system.dynamics += oc.STT(u=(ux, 0, 0), beta=beta)`. -/
def c7 : List PStmt :=
  [ PStmt.assign ("ux") (qn 400),
    PStmt.assign ("beta") (qn (0.5)),
    PStmt.attrAugAdd ("system") ("dynamics")
      (extCall ("oc") ("STT") []
        [("u", PExpr.tup [vr ("ux"), qn 0, qn 0]), ("beta", vr ("beta"))]) ]

/-- Cell: `td = oc.TimeDriver()`, `td.drive(system, t=0.5e-9, n=100)`, plot. -/
def c9 : List PStmt :=
  [ PStmt.assign ("td") (extCall ("oc") ("TimeDriver") [] []),
    PStmt.exprStmt
      (methCall (vr ("td")) ("drive") [vr ("system")]
        [("t", qn (0.5e-9)), ("n", qn 100)]),
    PStmt.exprStmt
      (methCall (PExpr.attrGet (PExpr.attrGet (vr ("system")) ("m")) ("z"))
        ("plot_plane") [PExpr.str ("z")] [("figsize", PExpr.tup [qn 12, qn 3])]) ]

/-- Exercise cell: full system set-up again (name "domain_wall"), including
the same `m_value` function and the initial field. -/
def c12 : List PStmt :=
  [ PStmt.assign ("L") (qn (500e-9)),
    PStmt.assign ("w") (qn (20e-9)),
    PStmt.assign ("d") (qn (2.5e-9)),
    PStmt.assign ("Ms") (qn (5.8e5)),
    PStmt.assign ("A") (qn (15e-12)),
    PStmt.assign ("D") (qn (3e-3)),
    PStmt.assign ("K") (qn (0.5e6)),
    PStmt.assign ("u") (PExpr.tup [qn 0, qn 0, qn 1]),
    PStmt.assign ("gamma") (qn (2.211e5)),
    PStmt.assign ("alpha") (qn (0.3)),
    PStmt.assign ("p1") (PExpr.tup [qn 0, qn 0, qn 0]),
    PStmt.assign ("p2") (PExpr.tup [vr ("L"), vr ("w"), vr ("d")]),
    PStmt.assign ("cell") (PExpr.tup [vr ("d"), vr ("d"), vr ("d")]),
    PStmt.assign ("mesh")
      (extCall ("oc") ("Mesh") []
        [("p1", vr ("p1")), ("p2", vr ("p2")), ("cell", vr ("cell"))]),
    PStmt.assign ("system")
      (extCall ("oc") ("System") [] [("name", PExpr.str ("domain_wall"))]),
    PStmt.attrAssign ("system") ("hamiltonian")
      (PExpr.add
        (PExpr.add
          (extCall ("oc") ("Exchange") [] [("A", vr ("A"))])
          (extCall ("oc") ("DMI") []
            [("D", vr ("D")), ("crystalclass", PExpr.str ("Cnv"))]))
        (extCall ("oc") ("UniaxialAnisotropy") [] [("K1", vr ("K")), ("u", vr ("u"))])),
    PStmt.attrAssign ("system") ("dynamics")
      (PExpr.add
        (extCall ("oc") ("Precession") [] [("gamma", vr ("gamma"))])
        (extCall ("oc") ("Damping") [] [("alpha", vr ("alpha"))])),
    PStmt.funcDef ("m_value") ("pos")
      [ FStmt.unpack ["x", "y", "z"] ("pos"),
        FStmt.fIf (PExpr.chainLt (qn (20e-9)) (vr ("x")) (qn (40e-9)))
          [FStmt.ret (PExpr.tup [qn 0, qn 0, qn (-1)])]
          [FStmt.ret (PExpr.tup [qn 0, qn 0, qn 1])] ],
    PStmt.attrAssign ("system") ("m")
      (extCall ("df") ("Field") [vr ("mesh")]
        [("value", vr ("m_value")), ("norm", vr ("Ms"))]),
    PStmt.exprStmt
      (methCall (PExpr.attrGet (PExpr.attrGet (vr ("system")) ("m")) ("z"))
        ("plot_plane") [PExpr.str ("z")] [("figsize", PExpr.tup [qn 12, qn 3])]) ]

/-- Exercise cell: minimise and plot. -/
def c13 : List PStmt :=
  [ PStmt.assign ("md") (extCall ("oc") ("MinDriver") [] []),
    PStmt.exprStmt (methCall (vr ("md")) ("drive") [vr ("system")] []),
    PStmt.exprStmt
      (methCall (PExpr.attrGet (PExpr.attrGet (vr ("system")) ("m")) ("z"))
        ("plot_plane") [PExpr.str ("z")] [("figsize", PExpr.tup [qn 12, qn 3])]) ]

/-- Exercise cell: add the STT term with `+=`, drive in time, plot. -/
def c14 : List PStmt :=
  [ PStmt.assign ("ux") (qn 400),
    PStmt.assign ("beta") (qn (0.5)),
    PStmt.attrAugAdd ("system") ("dynamics")
      (extCall ("oc") ("STT") []
        [("u", PExpr.tup [vr ("ux"), qn 0, qn 0]), ("beta", vr ("beta"))]),
    PStmt.assign ("td") (extCall ("oc") ("TimeDriver") [] []),
    PStmt.exprStmt
      (methCall (vr ("td")) ("drive") [vr ("system")]
        [("t", qn (0.5e-9)), ("n", qn 100)]),
    PStmt.exprStmt
      (methCall (PExpr.attrGet (PExpr.attrGet (vr ("system")) ("m")) ("z"))
        ("plot_plane") [PExpr.str ("z")] [("figsize", PExpr.tup [qn 10, qn 3])]) ]

/-- Tutorial 4 ("Current induced domain wall motion"): 15 cells, nbformat 4.2. -/
def nb : Notebook :=
  { cells :=
      [ mdCell, codeCell c1, mdCell, codeCell c3, mdCell, codeCell c5,
        mdCell, codeCell c7, mdCell, codeCell c9, mdCell, mdCell,
        codeCell c12, codeCell c13, codeCell c14 ],
    nbformat := 4,
    nbformatMinor := 2 }

end Tutorial4

/-- The four notebook documents of the repository, in tutorial order. -/
def notebooks : List Notebook :=
  [Tutorial0.nb, Tutorial1.nb, Tutorial3.nb, Tutorial4.nb]

/-! ## Collectors over the embedded syntax -/

mutual

/-- A statement together with all statements nested inside it. -/
def stmtFlat : PStmt → List PStmt
  | PStmt.tryExcept b h => PStmt.tryExcept b h :: (stmtsFlat b ++ stmtsFlat h)
  | PStmt.whileLoop c b => PStmt.whileLoop c b :: stmtsFlat b
  | s => [s]

/-- All statements of a list, nested ones included. -/
def stmtsFlat : List PStmt → List PStmt
  | [] => []
  | s :: ss => stmtFlat s ++ stmtsFlat ss

end

mutual

/-- A function-body statement with all statements nested inside it. -/
def fstmtFlat : FStmt → List FStmt
  | FStmt.fIf c t e => FStmt.fIf c t e :: (fstmtsFlat t ++ fstmtsFlat e)
  | FStmt.fTry b h => FStmt.fTry b h :: (fstmtsFlat b ++ fstmtsFlat h)
  | s => [s]

/-- All function-body statements of a list, nested ones included. -/
def fstmtsFlat : List FStmt → List FStmt
  | [] => []
  | s :: ss => fstmtFlat s ++ fstmtsFlat ss

end

mutual

/-- An expression together with all of its subexpressions. -/
def exprSubs : PExpr → List PExpr
  | PExpr.num q => [PExpr.num q]
  | PExpr.str s => [PExpr.str s]
  | PExpr.name s => [PExpr.name s]
  | PExpr.tup es => PExpr.tup es :: exprsSubs es
  | PExpr.pyList es => PExpr.pyList es :: exprsSubs es
  | PExpr.attrGet e f => PExpr.attrGet e f :: exprSubs e
  | PExpr.call f ps ks => PExpr.call f ps ks :: (exprSubs f ++ exprsSubs ps ++ kwSubs ks)
  | PExpr.add a b => PExpr.add a b :: (exprSubs a ++ exprSubs b)
  | PExpr.neg a => PExpr.neg a :: exprSubs a
  | PExpr.div a b => PExpr.div a b :: (exprSubs a ++ exprSubs b)
  | PExpr.pow a b => PExpr.pow a b :: (exprSubs a ++ exprSubs b)
  | PExpr.gt a b => PExpr.gt a b :: (exprSubs a ++ exprSubs b)
  | PExpr.lt a b => PExpr.lt a b :: (exprSubs a ++ exprSubs b)
  | PExpr.chainLt a b c => PExpr.chainLt a b c :: (exprSubs a ++ exprSubs b ++ exprSubs c)

/-- All subexpressions of a list of expressions. -/
def exprsSubs : List PExpr → List PExpr
  | [] => []
  | e :: es => exprSubs e ++ exprsSubs es

/-- All subexpressions of a keyword-argument list. -/
def kwSubs : List (String × PExpr) → List PExpr
  | [] => []
  | (_, e) :: ks => exprSubs e ++ kwSubs ks

end

/-- The expressions appearing directly in the condition or returned value of a
function-body statement, with their subexpressions. -/
def fstmtTopExprs : FStmt → List PExpr
  | FStmt.unpack _ _ => []
  | FStmt.ret e => exprSubs e
  | FStmt.fIf c _ _ => exprSubs c
  | FStmt.fTry _ _ => []

/-- All expressions of a function body (apply to a flattened body). -/
def fstmtsExprs : List FStmt → List PExpr
  | [] => []
  | s :: ss => fstmtTopExprs s ++ fstmtsExprs ss

/-- All expressions of a single (already flattened) statement, including those
inside a defined function's body. -/
def stmtTopExprs : PStmt → List PExpr
  | PStmt.pyImport _ _ => []
  | PStmt.magic _ => []
  | PStmt.assign _ e => exprSubs e
  | PStmt.attrAssign _ _ e => exprSubs e
  | PStmt.attrAugAdd _ _ e => exprSubs e
  | PStmt.funcDef _ _ body => fstmtsExprs (fstmtsFlat body)
  | PStmt.exprStmt e => exprSubs e
  | PStmt.tryExcept _ _ => []
  | PStmt.whileLoop c _ => exprSubs c

/-- All expressions of a flattened statement list. -/
def stmtsExprs : List PStmt → List PExpr
  | [] => []
  | s :: ss => stmtTopExprs s ++ stmtsExprs ss

/-- The code of all cells of a notebook, in cell order. -/
def cellsCode : List Cell → List PStmt
  | [] => []
  | c :: cs => c.code ++ cellsCode cs

/-- Every statement of a notebook's code cells, nested statements included. -/
def nbStmts (nb : Notebook) : List PStmt := stmtsFlat (cellsCode nb.cells)

/-- Every expression occurring anywhere in a notebook's code cells. -/
def nbExprs (nb : Notebook) : List PExpr := stmtsExprs (nbStmts nb)

/-! ## Checkers for the structural claims -/

/-- An expression containing no call at all. -/
def exprCallFree (e : PExpr) : Bool :=
  (exprSubs e).all fun s => match s with
    | PExpr.call _ _ _ => false
    | _ => true

/-- The five Hamiltonian energy-term constructor names. -/
def isEnergyTermName (f : String) : Bool :=
  f == "Exchange" || f == "Demag" || f == "Zeeman" || f == "DMI"
    || f == "UniaxialAnisotropy"

/-- The three dynamics term constructor names. -/
def isDynTermName (f : String) : Bool :=
  f == "Precession" || f == "Damping" || f == "STT"

/-- A sum whose summands are all calls `oc.<energy term>(...)`. -/
def isEnergySum : PExpr → Bool
  | PExpr.add a b => isEnergySum a && isEnergySum b
  | PExpr.call (PExpr.attrGet (PExpr.name o) f) _ _ => o == "oc" && isEnergyTermName f
  | _ => false

/-- A sum whose summands are all calls `oc.<dynamics term>(...)`. -/
def isDynSum : PExpr → Bool
  | PExpr.add a b => isDynSum a && isDynSum b
  | PExpr.call (PExpr.attrGet (PExpr.name o) f) _ _ => o == "oc" && isDynTermName f
  | _ => false

/-- C3 checker: nbformat 4 and every cell markdown or code. -/
def wellFormedNotebook (nb : Notebook) : Bool :=
  nb.nbformat == 4
    && nb.cells.all fun c => c.cellType == "markdown" || c.cellType == "code"

/-- C4 checker: every import statement imports `oommfc` or `discretisedfield`. -/
def importsOnlyMicromagnetics (nb : Notebook) : Bool :=
  (nbStmts nb).all fun s => match s with
    | PStmt.pyImport m _ => m == "oommfc" || m == "discretisedfield"
    | _ => true

/-- C7 checker, part 1: no `try`/`except` and no loop at the cell level. -/
def noErrorHandlingStmts (nb : Notebook) : Bool :=
  (nbStmts nb).all fun s => match s with
    | PStmt.tryExcept _ _ => false
    | PStmt.whileLoop _ _ => false
    | _ => true

/-- C7 checker, part 2: every defined function's body consists only of
argument unpacking, `if`/`else`, and `return` statements. -/
def funcBodiesPlain (nb : Notebook) : Bool :=
  (nbStmts nb).all fun s => match s with
    | PStmt.funcDef _ _ body =>
        (fstmtsFlat body).all fun t => match t with
          | FStmt.fTry _ _ => false
          | _ => true
    | _ => true

/-- C7 checker: no error-handling construct anywhere. -/
def noErrorHandling (nb : Notebook) : Bool :=
  noErrorHandlingStmts nb && funcBodiesPlain nb

/-- C5 checker: every value assigned to `system.hamiltonian` is a sum of
energy-term constructor calls, and `system.hamiltonian` is never augmented. -/
def hamiltonianOk (nb : Notebook) : Bool :=
  (nbStmts nb).all fun s => match s with
    | PStmt.attrAssign o f e =>
        if o == "system" && f == "hamiltonian" then isEnergySum e else true
    | PStmt.attrAugAdd o f _ => !(o == "system" && f == "hamiltonian")
    | _ => true

/-- The value of `system.dynamics` after a statement, given its prior value,
when the statement touches it; `none` otherwise. -/
def dynTouched (cur : Option PExpr) (s : PStmt) : Option PExpr :=
  match s with
  | PStmt.attrAssign o f e =>
      if o == "system" && f == "dynamics" then some e else none
  | PStmt.attrAugAdd o f e =>
      if o == "system" && f == "dynamics" then
        match cur with
        | some c => some (PExpr.add c e)
        | none => none
      else none
  | _ => none

/-- Every value successively held by `system.dynamics` along a statement
list, in order. -/
def dynStates (cur : Option PExpr) : List PStmt → List PExpr
  | [] => []
  | s :: rest =>
      match dynTouched cur s with
      | some nxt => nxt :: dynStates (some nxt) rest
      | none => dynStates cur rest

/-- C6 checker, part 1: every value ever held by `system.dynamics` is a sum
of dynamics-term constructor calls. -/
def dynamicsOk (nb : Notebook) : Bool :=
  (dynStates none (nbStmts nb)).all isDynSum

/-- Exactly the call `oc.Precession(gamma=gamma)`. -/
def isPrecessionCall : PExpr → Bool
  | PExpr.call (PExpr.attrGet (PExpr.name o) f) ps ks =>
      o == "oc" && f == "Precession" && ps.isEmpty
        && (match ks with
            | [(k, PExpr.name v)] => k == "gamma" && v == "gamma"
            | _ => false)
  | _ => false

/-- Exactly the call `oc.Damping(alpha=alpha)`. -/
def isDampingCall : PExpr → Bool
  | PExpr.call (PExpr.attrGet (PExpr.name o) f) ps ks =>
      o == "oc" && f == "Damping" && ps.isEmpty
        && (match ks with
            | [(k, PExpr.name v)] => k == "alpha" && v == "alpha"
            | _ => false)
  | _ => false

/-- Exactly the call `oc.STT(u=(ux, 0, 0), beta=beta)`. -/
def isSTTCall : PExpr → Bool
  | PExpr.call (PExpr.attrGet (PExpr.name o) f) ps ks =>
      o == "oc" && f == "STT" && ps.isEmpty
        && (match ks with
            | [(k1, PExpr.tup [PExpr.name a, PExpr.num x, PExpr.num y]),
               (k2, PExpr.name b)] =>
                k1 == "u" && a == "ux" && x == 0 && y == 0
                  && k2 == "beta" && b == "beta"
            | _ => false)
  | _ => false

/-- Exactly `oc.Precession(gamma=gamma) + oc.Damping(alpha=alpha)`. -/
def isPrecDampSum : PExpr → Bool
  | PExpr.add a b => isPrecessionCall a && isDampingCall b
  | _ => false

/-- Exactly precession plus damping plus the spin-transfer-torque term. -/
def isPrecDampSTTSum : PExpr → Bool
  | PExpr.add ab s => isPrecDampSum ab && isSTTCall s
  | _ => false

/-- C6 checker, part 2: in Tutorial 4, `system.dynamics` holds precisely
precession + damping, then (after `+=`) precession + damping + STT, and the
same again in the exercise solution. -/
def t4DynTraceOk : Bool :=
  match dynStates none (nbStmts Tutorial4.nb) with
  | [a, b, c, d] =>
      isPrecDampSum a && isPrecDampSTTSum b && isPrecDampSum c && isPrecDampSTTSum d
  | _ => false

/-- External constructor names (mesh, field, system, drivers, terms). -/
def isCtorName (f : String) : Bool :=
  f == "Mesh" || f == "Field" || f == "System" || f == "MinDriver"
    || f == "TimeDriver" || isEnergyTermName f || isDynTermName f

/-- Variables assigned a driver object `oc.MinDriver()` or `oc.TimeDriver()`. -/
def driverVars (ss : List PStmt) : List String :=
  ss.filterMap fun s => match s with
    | PStmt.assign v (PExpr.call (PExpr.attrGet (PExpr.name o) f) _ _) =>
        if o == "oc" && (f == "MinDriver" || f == "TimeDriver") then some v else none
    | _ => none

/-- Variables assigned a field object `df.Field(...)`. -/
def fieldVars (ss : List PStmt) : List String :=
  ss.filterMap fun s => match s with
    | PStmt.assign v (PExpr.call (PExpr.attrGet (PExpr.name o) f) _ _) =>
        if o == "df" && f == "Field" then some v else none
    | _ => none

/-- Variables assigned a mesh object `df.Mesh(...)` or `oc.Mesh(...)`. -/
def meshVars (ss : List PStmt) : List String :=
  ss.filterMap fun s => match s with
    | PStmt.assign v (PExpr.call (PExpr.attrGet (PExpr.name o) f) _ _) =>
        if (o == "df" || o == "oc") && f == "Mesh" then some v else none
    | _ => none

/-- Names of the functions defined in the notebook. -/
def funcNames (ss : List PStmt) : List String :=
  ss.filterMap fun s => match s with
    | PStmt.funcDef f _ _ => some f
    | _ => none

/-- C2 checker, part 1: every call anywhere in the notebook is delegated:
constructor calls go to the package aliases `df`/`oc`, `.drive` calls go to
driver objects obtained from `oc`, and calls of a bare variable are samplings
of a field object obtained from `df.Field`. -/
def callsDelegated (nb : Notebook) : Bool :=
  let ss := nbStmts nb
  let dvs := driverVars ss
  let fvs := fieldVars ss
  (nbExprs nb).all fun e => match e with
    | PExpr.call (PExpr.attrGet (PExpr.name o) f) _ _ =>
        (!isCtorName f || (o == "df" || o == "oc"))
          && (f != "drive" || dvs.contains o)
    | PExpr.call (PExpr.attrGet _ f) _ _ => !isCtorName f && f != "drive"
    | PExpr.call (PExpr.name v) _ _ => fvs.contains v
    | PExpr.call _ _ _ => false
    | _ => true

/-- C2 checker, part 2: every notebook-defined function is a pointwise value
function: its body is only unpacking, `if`/`else` and `return`, and contains
no call, so it implements no discretisation, energy evaluation or
time integration. -/
def funcsPointwise (nb : Notebook) : Bool :=
  (nbStmts nb).all fun s => match s with
    | PStmt.funcDef _ _ body =>
        (fstmtsFlat body).all fun t => match t with
          | FStmt.unpack _ _ => true
          | FStmt.ret e => exprCallFree e
          | FStmt.fIf c _ _ => exprCallFree c
          | FStmt.fTry _ _ => false
    | _ => true

/-- C2 checker: all algorithmic work is delegated to the imported packages. -/
def delegationOk (nb : Notebook) : Bool :=
  callsDelegated nb && funcsPointwise nb

/-! ## Checkers for claim C1 (constructor parameters) -/

/-- The constructors named by claim C1: mesh, field, and the Hamiltonian and
dynamics term constructors. -/
def isParamCtorName (f : String) : Bool :=
  f == "Mesh" || f == "Field" || isEnergyTermName f || isDynTermName f

mutual

/-- A literal numeric scalar or a literal tuple of such literals. -/
def numLit : PExpr → Bool
  | PExpr.num _ => true
  | PExpr.tup es => numLits es
  | _ => false

/-- All members are numeric literals. -/
def numLits : List PExpr → Bool
  | [] => true
  | e :: es => numLit e && numLits es

end

/-- Claim C1 as stated: every positional and keyword argument of every
external-constructor call is a literal numeric scalar or tuple. -/
def c1Strict : Bool :=
  notebooks.all fun nb =>
    (nbExprs nb).all fun e => match e with
      | PExpr.call (PExpr.attrGet (PExpr.name o) f) ps ks =>
          if (o == "df" || o == "oc") && isParamCtorName f then
            numLits ps && ks.all fun kv => numLit kv.2
          else true
      | _ => true

/-- Witness for the refutation of C1: Tutorial 1 contains a `df.Field` call
whose `value=` argument is the name of a notebook-defined Python function. -/
def fieldFuncValueWitness : Bool :=
  (nbExprs Tutorial1.nb).any fun e => match e with
    | PExpr.call (PExpr.attrGet (PExpr.name o) f) _ ks =>
        o == "df" && f == "Field"
          && ks.any fun kv =>
            kv.1 == "value"
              && (match kv.2 with
                  | PExpr.name v => (funcNames (nbStmts Tutorial1.nb)).contains v
                  | _ => false)
    | _ => false

mutual

/-- A numeric expression: a literal, a variable of numeric value, or a tuple,
negation, sum, quotient or power of numeric expressions. -/
def numericExpr (nv : List String) : PExpr → Bool
  | PExpr.num _ => true
  | PExpr.name v => nv.contains v
  | PExpr.tup es => numericExprs nv es
  | PExpr.neg a => numericExpr nv a
  | PExpr.add a b => numericExpr nv a && numericExpr nv b
  | PExpr.div a b => numericExpr nv a && numericExpr nv b
  | PExpr.pow a b => numericExpr nv a && numericExpr nv b
  | _ => false

/-- All members are numeric expressions. -/
def numericExprs (nv : List String) : List PExpr → Bool
  | [] => true
  | e :: es => numericExpr nv e && numericExprs nv es

end

/-- The variables of a statement list that are assigned numeric values
(scalars or tuples built from literals and earlier numeric variables). -/
def numVarsAux (acc : List String) : List PStmt → List String
  | [] => acc
  | PStmt.assign v e :: rest =>
      if numericExpr acc e then numVarsAux (v :: acc) rest else numVarsAux acc rest
  | _ :: rest => numVarsAux acc rest

/-- The numeric variables of a statement list. -/
def numVars (ss : List PStmt) : List String := numVarsAux [] ss

/-- A legitimate constructor parameter after amendment: a numeric expression
over literals and numeric variables, a string literal, a mesh variable, or —
only as the `value=` or `norm=` keyword of `df.Field` — a notebook-defined
function. -/
def okParamValue (nv mv fn : List String) (isField : Bool) (key : Option String)
    (e : PExpr) : Bool :=
  numericExpr nv e
    || (match e with
        | PExpr.str _ => true
        | PExpr.name v =>
            mv.contains v
              || (fn.contains v && isField
                  && (match key with
                      | some k => k == "value" || k == "norm"
                      | none => false))
        | _ => false)

/-- Claim C1 as amended: every argument of every external-constructor call is
a numeric expression, a string literal, a mesh object, or (for `value=` and
`norm=` of `df.Field` only) a notebook-defined function. -/
def c1Amended : Bool :=
  notebooks.all fun nb =>
    let ss := nbStmts nb
    let nv := numVars ss
    let mv := meshVars ss
    let fn := funcNames ss
    (nbExprs nb).all fun e => match e with
      | PExpr.call (PExpr.attrGet (PExpr.name o) f) ps ks =>
          if (o == "df" || o == "oc") && isParamCtorName f then
            ps.all (okParamValue nv mv fn (f == "Field") none)
              && ks.all fun kv => okParamValue nv mv fn (f == "Field") (some kv.1) kv.2
          else true
      | _ => true

/-! ## Shallow embedding of the pointwise magnetisation functions

The three Python functions defined in the notebooks compute pointwise values
from a position triple; they are transcribed here over the real numbers. -/

namespace Tutorial1

/-- Edge length constant of Tutorial 1: `L = 100e-9`. -/
noncomputable def L : ℝ := 100e-9

/-- Saturation magnetisation of Tutorial 1: `Ms = 8e6`. -/
noncomputable def Ms : ℝ := 8e6

/-- Spatially varying magnetisation of Tutorial 1, from the notebook source:
unpack `pos` into `x, y, z`; if `x > L/5` return `(1, 0, 0)`, else
return `(-1, 1, 0)`. -/
noncomputable def m_value (pos : ℝ × ℝ × ℝ) : ℝ × ℝ × ℝ :=
  let (x, y, z) := pos
  if x > L / 5 then (1, 0, 0) else (-1, 1, 0)

/-- Sphere norm function of Tutorial 1, from the notebook source: unpack
`pos` into `x, y, z`; if `(x**2 + y**2 + z**2)**0.5 < L/2` return `Ms`, else
return `0`. -/
noncomputable def Ms_value (pos : ℝ × ℝ × ℝ) : ℝ :=
  let (x, y, z) := pos
  if (x ^ 2 + y ^ 2 + z ^ 2) ^ ((0.5 : ℝ)) < L / 2 then Ms else 0

end Tutorial1

namespace Tutorial4

/-- Domain-wall initialisation function of Tutorial 4, from the notebook
source: unpack `pos` into `x, y, z`; if `20e-9 < x < 40e-9` return
`(0, 0, -1)`, else return `(0, 0, 1)`. -/
noncomputable def m_value (pos : ℝ × ℝ × ℝ) : ℝ × ℝ × ℝ :=
  let (x, y, z) := pos
  if (20e-9 : ℝ) < x ∧ x < 40e-9 then (0, 0, -1) else (0, 0, 1)

end Tutorial4

/-! ## The claims -/

/-- Claim C1 is false as stated: it is not the case that every parameter
supplied to an external constructor in the notebooks is a literal numeric
tuple or scalar; in particular Tutorial 1 passes the notebook-defined Python
function `m_value` as the `value=` argument of `df.Field`. -/
theorem C1_counterexample : c1Strict = false ∧ fieldFuncValueWitness = true := by
  decide

/-- Claim C1 as amended: every parameter supplied to an external constructor
in the notebooks is a numeric expression built from literals and
previously-assigned numeric variables (scalar or tuple), a string literal, a
previously constructed mesh object, or — only as the `value=` or `norm=`
argument of `df.Field` — a notebook-defined Python function. -/
theorem C1_params_amended : c1Amended = true := by decide

/-- Claim C2: no code cell implements mesh construction, field sampling,
energy-term composition or a numerical solver itself; every such operation is
a call into the imported packages (`df`/`oc` constructor calls, `.drive`
calls on driver objects obtained from `oc`, field samplings of `df.Field`
objects), and every notebook-defined function is a pointwise, call-free value
function. -/
theorem C2_all_delegated : notebooks.all delegationOk = true := by decide

/-- Claim C3: each of the repository's notebook documents is a well-formed
nbformat-4 notebook whose cell list consists only of markdown and code
cells. -/
theorem C3_notebooks_wellformed : notebooks.all wellFormedNotebook = true := by
  decide

/-- Claim C4: every import statement in every notebook code cell imports
exactly one of the two packages `oommfc` and `discretisedfield`, and no other
module is imported anywhere. -/
theorem C4_imports_only_micromagnetics :
    notebooks.all importsOnlyMicromagnetics = true := by decide

/-- Claim C5: every value assigned to `system.hamiltonian` in the notebooks
is a sum whose summands are drawn only from `oc.Exchange`, `oc.Demag`,
`oc.UniaxialAnisotropy`, `oc.Zeeman` and `oc.DMI`, and `system.hamiltonian`
is never modified by `+=`. -/
theorem C5_hamiltonian_terms : notebooks.all hamiltonianOk = true := by decide

/-- Claim C6: every dynamics equation built in the notebooks is a sum of
terms drawn only from `oc.Precession`, `oc.Damping` and `oc.STT`; moreover
in Tutorial 4 the dynamics values are, in order, precession + damping, then
(after `+=`) precession + damping + STT, and the same pair again in the
exercise solution. -/
theorem C6_dynamics_terms :
    (notebooks.all dynamicsOk && t4DynTraceOk) = true := by decide

/-- Claim C7: no notebook code cell contains a `try`/`except`, a retry loop
or any recovery branch, and every notebook-defined function body consists
only of argument unpacking, `if`/`else` and `return` statements. -/
theorem C7_no_error_handling : notebooks.all noErrorHandling = true := by decide

/-- Claim C8: the Tutorial 1 function `m_value` is total on real triples,
returns exactly `(1, 0, 0)` when `x > L/5` (with `L = 100e-9`) and exactly
`(-1, 1, 0)` otherwise, and never depends on the `y` or `z` coordinate. -/
theorem C8_m_value_tutorial1 :
    ∀ x y z y' z' : ℝ,
      Tutorial1.m_value (x, y, z)
          = (if x > (100e-9 : ℝ) / 5 then ((1 : ℝ), (0 : ℝ), (0 : ℝ)) else (-1, 1, 0))
        ∧ Tutorial1.m_value (x, y, z) = Tutorial1.m_value (x, y', z') := by
  intro x y z y' z'
  exact ⟨rfl, rfl⟩

/-- Claim C9: the Tutorial 1 sphere norm function `Ms_value` returns
`Ms = 8e6` at every position strictly inside the sphere of radius `L/2`
about the origin (`x² + y² + z² < (L/2)²`, `L = 100e-9`) and `0` at every
other position; its value is always `0` or `Ms` and never negative. -/
theorem C9_Ms_value_sphere :
    ∀ x y z : ℝ,
      (Tutorial1.Ms_value (x, y, z)
          = if x ^ 2 + y ^ 2 + z ^ 2 < ((100e-9 : ℝ) / 2) ^ 2 then (8e6 : ℝ) else 0)
        ∧ (Tutorial1.Ms_value (x, y, z) = 0 ∨ Tutorial1.Ms_value (x, y, z) = (8e6 : ℝ))
        ∧ 0 ≤ Tutorial1.Ms_value (x, y, z) := by
  intro x y z
  have hL : (0 : ℝ) < (100e-9 : ℝ) / 2 := by norm_num
  have key : ((x ^ 2 + y ^ 2 + z ^ 2) ^ ((0.5 : ℝ)) < (100e-9 : ℝ) / 2)
      ↔ x ^ 2 + y ^ 2 + z ^ 2 < ((100e-9 : ℝ) / 2) ^ 2 := by
    rw [show ((0.5 : ℝ)) = 1 / 2 by norm_num, ← Real.sqrt_eq_rpow]
    exact Real.sqrt_lt' hL
  have h1 : Tutorial1.Ms_value (x, y, z)
      = if x ^ 2 + y ^ 2 + z ^ 2 < ((100e-9 : ℝ) / 2) ^ 2 then (8e6 : ℝ) else 0 := by
    show (if (x ^ 2 + y ^ 2 + z ^ 2) ^ ((0.5 : ℝ)) < (100e-9 : ℝ) / 2
        then (8e6 : ℝ) else 0) = _
    exact if_congr key rfl rfl
  refine ⟨h1, ?_, ?_⟩
  · rw [h1]
    by_cases h : x ^ 2 + y ^ 2 + z ^ 2 < ((100e-9 : ℝ) / 2) ^ 2
    · exact Or.inr (if_pos h)
    · exact Or.inl (if_neg h)
  · rw [h1]
    by_cases h : x ^ 2 + y ^ 2 + z ^ 2 < ((100e-9 : ℝ) / 2) ^ 2
    · rw [if_pos h]; norm_num
    · rw [if_neg h]

/-- Claim C10: the Tutorial 4 function `m_value` depends only on the `x`
coordinate of its argument, always returns a unit vector with zero `x` and
`y` components, and returns `(0, 0, -1)` exactly when `20e-9 < x < 40e-9`
and `(0, 0, 1)` otherwise. -/
theorem C10_m_value_tutorial4 :
    ∀ x y z y' z' : ℝ,
      Tutorial4.m_value (x, y, z) = Tutorial4.m_value (x, y', z')
        ∧ (Tutorial4.m_value (x, y, z)
            = if (20e-9 : ℝ) < x ∧ x < 40e-9
              then ((0 : ℝ), (0 : ℝ), (-1 : ℝ)) else (0, 0, 1))
        ∧ (Tutorial4.m_value (x, y, z)).1 = 0
        ∧ (Tutorial4.m_value (x, y, z)).2.1 = 0
        ∧ ((Tutorial4.m_value (x, y, z)).2.2 = -1 ∨ (Tutorial4.m_value (x, y, z)).2.2 = 1)
        ∧ (Tutorial4.m_value (x, y, z)).1 ^ 2 + (Tutorial4.m_value (x, y, z)).2.1 ^ 2
            + (Tutorial4.m_value (x, y, z)).2.2 ^ 2 = 1
        ∧ (Tutorial4.m_value (x, y, z) = ((0 : ℝ), (0 : ℝ), (-1 : ℝ))
            ↔ ((20e-9 : ℝ) < x ∧ x < 40e-9)) := by
  intro x y z y' z'
  refine ⟨rfl, rfl, ?_⟩
  by_cases h : (20e-9 : ℝ) < x ∧ x < 40e-9
  · have hm : Tutorial4.m_value (x, y, z) = ((0 : ℝ), (0 : ℝ), (-1 : ℝ)) := by
      show (if (20e-9 : ℝ) < x ∧ x < 40e-9
          then ((0 : ℝ), (0 : ℝ), (-1 : ℝ)) else (0, 0, 1)) = _
      rw [if_pos h]
    rw [hm]
    exact ⟨rfl, rfl, Or.inl rfl, by norm_num, iff_of_true rfl h⟩
  · have hm : Tutorial4.m_value (x, y, z) = ((0 : ℝ), (0 : ℝ), (1 : ℝ)) := by
      show (if (20e-9 : ℝ) < x ∧ x < 40e-9
          then ((0 : ℝ), (0 : ℝ), (-1 : ℝ)) else (0, 0, 1)) = _
      rw [if_neg h]
    rw [hm]
    refine ⟨rfl, rfl, Or.inr rfl, by norm_num, iff_of_false ?_ h⟩
    intro he
    have h3 := congrArg (fun p : ℝ × ℝ × ℝ => p.2.2) he
    norm_num at h3

end ICM
